import Mathlib

set_option maxRecDepth 40000

/-!
Verification of the attribute layer of an NTFS reader (file src/attribute.rs)
against its natural-language specification.

The on-disk structures are modelled over byte lists (`List Nat`, each byte
taken modulo 256 by the little-endian decoder).  Reads that the Rust code
performs by slicing (which panics when out of range) are modelled as
`Option`-valued: `none` stands for a panic.  Fallible operations return
`Res α = Option (Except NtfsError α)`: `none` is a panic, `some (.error e)`
an error result, `some (.ok a)` success.
-/

/-- Little-endian value of a byte list (bytes taken modulo 256). -/
def leBytes : List Nat → Nat
  | [] => 0
  | b :: rest => b % 256 + 256 * leBytes rest

/-- Read `n` bytes little-endian at index `start`; `none` models the panic of
slicing past the physical end of the buffer. -/
def readLE (data : List Nat) (start n : Nat) : Option Nat :=
  if start + n ≤ data.length then some (leBytes ((data.drop start).take n)) else none

/-- The byte slice `[start, stop)`; `none` models the panic of an
out-of-range Rust slice. -/
def sliceBytes (data : List Nat) (start stop : Nat) : Option (List Nat) :=
  if start ≤ stop ∧ stop ≤ data.length then some ((data.drop start).take (stop - start)) else none

/-- Attribute type codes of `NtfsAttributeType` (src/attribute.rs). -/
inductive NtfsAttributeType where
  | StandardInformation
  | AttributeList
  | FileName
  | ObjectId
  | SecurityDescriptor
  | VolumeName
  | VolumeInformation
  | Data
  | IndexRoot
  | IndexAllocation
  | Bitmap
  | ReparsePoint
  | EAInformation
  | EA
  | PropertySet
  | LoggedUtilityStream
  | End
  deriving DecidableEq, Repr

/-- Source `NtfsAttributeType::n`: map a raw type code to the enum. -/
def NtfsAttributeType.n (code : Nat) : Option NtfsAttributeType :=
  if code = 0x10 then some .StandardInformation
  else if code = 0x20 then some .AttributeList
  else if code = 0x30 then some .FileName
  else if code = 0x40 then some .ObjectId
  else if code = 0x50 then some .SecurityDescriptor
  else if code = 0x60 then some .VolumeName
  else if code = 0x70 then some .VolumeInformation
  else if code = 0x80 then some .Data
  else if code = 0x90 then some .IndexRoot
  else if code = 0xA0 then some .IndexAllocation
  else if code = 0xB0 then some .Bitmap
  else if code = 0xC0 then some .ReparsePoint
  else if code = 0xD0 then some .EAInformation
  else if code = 0xE0 then some .EA
  else if code = 0xF0 then some .PropertySet
  else if code = 0x100 then some .LoggedUtilityStream
  else if code = 0xFFFFFFFF then some .End
  else none

/-- Error surface of the attribute layer (src/error.rs is external; payloads
follow the constructor calls in src/attribute.rs and spec section 4.5). -/
inductive NtfsError where
  | UnsupportedAttributeType (position actual : Nat)
  | InvalidAttributeNameOffset (position expected actual : Nat)
  | InvalidAttributeNameLength (position expected actual : Nat)
  | InvalidResidentAttributeValueOffset (position expected actual : Nat)
  | InvalidResidentAttributeValueLength (position expected actual : Nat)
  | UnexpectedNonResidentAttribute (position : Nat)
  | AttributeOfDifferentType (position : Nat) (expected actual : NtfsAttributeType)
  | AttributeNotFound (position ty instanceNum : Nat)
  | FileNotFound (recordNumber : Nat)
  deriving DecidableEq, Repr

instance {ε α : Type} [DecidableEq ε] [DecidableEq α] : DecidableEq (Except ε α) := fun x y =>
  match x, y with
  | .ok a, .ok b =>
    if h : a = b then .isTrue (congrArg Except.ok h)
    else .isFalse (fun hh => h (Except.ok.inj hh))
  | .error e, .error f =>
    if h : e = f then .isTrue (congrArg Except.error h)
    else .isFalse (fun hh => h (Except.error.inj hh))
  | .ok _, .error _ => .isFalse (fun hh => Except.noConfusion hh)
  | .error _, .ok _ => .isFalse (fun hh => Except.noConfusion hh)

/-- Panic-or-result: `none` is a Rust panic, `some` the returned `Result`. -/
def Res (α : Type) : Type := Option (Except NtfsError α)

instance {α : Type} [DecidableEq α] : DecidableEq (Res α) :=
  inferInstanceAs (DecidableEq (Option (Except NtfsError α)))

/-- Successful result. -/
def rok {α : Type} (a : α) : Res α := some (.ok a)

/-- Error result. -/
def rerr {α : Type} (e : NtfsError) : Res α := some (.error e)

/-- The loaded file record as the core observes it (spec section 3,
`FileRecord` is external to the shown sources). -/
structure NtfsFile where
  record_data : List Nat
  position : Nat
  used_size : Nat
  first_attribute_offset : Nat
  file_record_number : Nat
  deriving DecidableEq, Repr

/-- One decoded attribute-list entry.
Modelled from the spec: the attribute-list code is not under src; section 3
gives its fields (type, name, starting VCN, base file reference with record
number and sequence, instance id) and section 4.5 requires errors to carry a
position, so a decoded entry carries its absolute position as well. -/
structure NtfsAttributeListEntry where
  ty_code : Nat
  name : List Nat
  starting_vcn : Nat
  base_record_number : Nat
  base_sequence : Nat
  instanceNum : Nat
  position : Nat
  deriving DecidableEq, Repr

/-- The attribute-list entries iterator.
Modelled from the spec: `NtfsAttributeListEntries` (structured_values code,
not under src) decodes one entry per step from the list value; section 4.3
makes it restartable by cloning its state and section 7 makes iterators
surface one error and then produce no further items.  The state is the
remaining sequence of decode results. -/
structure NtfsAttributeListEntries where
  entries : List (Except NtfsError NtfsAttributeListEntry)
  deriving DecidableEq, Repr

/-- Modelled from the spec: one step of the attribute-list entries iterator
(pop the next decode result; after an error the iterator is exhausted). -/
def NtfsAttributeListEntries.next (it : NtfsAttributeListEntries) :
    Option (Except NtfsError NtfsAttributeListEntry) × NtfsAttributeListEntries :=
  match it.entries with
  | [] => (none, it)
  | .ok e :: rest => (some (.ok e), ⟨rest⟩)
  | .error e :: _ => (some (.error e), ⟨[]⟩)

/-- The attribute cursor `NtfsAttribute` (src/attribute.rs line 122):
a file-record handle, a byte offset, and an optional attribute-list
iterator handle. -/
structure NtfsAttribute where
  file : NtfsFile
  offset : Nat
  list_entries : Option NtfsAttributeListEntries
  deriving DecidableEq, Repr

/-- Source `NtfsAttribute::attribute_length`: u32 at header offset 4. -/
def NtfsAttribute.attribute_length (a : NtfsAttribute) : Option Nat :=
  readLE a.file.record_data (a.offset + 4) 4

/-- Known flag bits of `NtfsAttributeFlags` (src/attribute.rs lines 45-54). -/
def NtfsAttributeFlags.COMPRESSED : Nat := 0x0001

/-- Source `ENCRYPTED` flag bit. -/
def NtfsAttributeFlags.ENCRYPTED : Nat := 0x4000

/-- Source `SPARSE` flag bit. -/
def NtfsAttributeFlags.SPARSE : Nat := 0x8000

/-- Source `bitflags` truncation: keep only the known bits. -/
def NtfsAttributeFlags.from_bits_truncate (w : Nat) : Nat :=
  w &&& (NtfsAttributeFlags.COMPRESSED ||| NtfsAttributeFlags.ENCRYPTED |||
    NtfsAttributeFlags.SPARSE)

/-- Source `NtfsAttribute::flags`: u16 at header offset 12, decoded with truncation. -/
def NtfsAttribute.flags (a : NtfsAttribute) : Option Nat :=
  match readLE a.file.record_data (a.offset + 12) 2 with
  | none => none
  | some w => some (NtfsAttributeFlags.from_bits_truncate w)

/-- Source `NtfsAttribute::instance`: u16 at header offset 14. -/
def NtfsAttribute.instanceNum (a : NtfsAttribute) : Option Nat :=
  readLE a.file.record_data (a.offset + 14) 2

/-- Source `NtfsAttribute::is_resident`: the byte at header offset 8 is zero. -/
def NtfsAttribute.is_resident (a : NtfsAttribute) : Option Bool :=
  match readLE a.file.record_data (a.offset + 8) 1 with
  | none => none
  | some b => some (b = 0)

/-- Source `NtfsAttribute::name_offset`: u16 at header offset 10. -/
def NtfsAttribute.name_offset (a : NtfsAttribute) : Option Nat :=
  readLE a.file.record_data (a.offset + 10) 2

/-- Source `NtfsAttribute::name_length`: byte at header offset 9 times 2. -/
def NtfsAttribute.name_length (a : NtfsAttribute) : Option Nat :=
  match readLE a.file.record_data (a.offset + 9) 1 with
  | none => none
  | some c => some (c * 2)

/-- Source `NtfsAttribute::position`: absolute position of the attribute. -/
def NtfsAttribute.position (a : NtfsAttribute) : Nat :=
  a.file.position + a.offset

/-- Source `NtfsAttribute::ty`: u32 at header offset 0 mapped through
`NtfsAttributeType::n`, `UnsupportedAttributeType` on unknown codes. -/
def NtfsAttribute.ty (a : NtfsAttribute) : Res NtfsAttributeType :=
  match readLE a.file.record_data (a.offset + 0) 4 with
  | none => none
  | some code =>
    match NtfsAttributeType.n code with
    | some t => rok t
    | none => rerr (.UnsupportedAttributeType a.position code)

/-- Source `NtfsAttribute::validate_name_sizes` (src/attribute.rs lines 326-346). -/
def NtfsAttribute.validate_name_sizes (a : NtfsAttribute) : Res Unit :=
  match a.name_offset with
  | none => none
  | some no =>
    match a.attribute_length with
    | none => none
    | some al =>
      if al ≤ no then rerr (.InvalidAttributeNameOffset a.position no al)
      else
        match a.name_length with
        | none => none
        | some nl =>
          if al < no + nl then rerr (.InvalidAttributeNameLength a.position (no + nl) al)
          else rok ()

/-- Source `NtfsAttribute::name` (src/attribute.rs lines 179-191): empty slice when
`name_offset` or `name_length` is zero (short-circuit evaluation reads
`name_length` only when `name_offset` is nonzero), otherwise validate and
slice `[offset + name_offset, offset + name_offset + name_length)`. -/
def NtfsAttribute.name (a : NtfsAttribute) : Res (List Nat) :=
  match a.name_offset with
  | none => none
  | some no =>
    if no = 0 then rok []
    else
      match a.name_length with
      | none => none
      | some nl =>
        if nl = 0 then rok []
        else
          match a.validate_name_sizes with
          | none => none
          | some (.error e) => rerr e
          | some (.ok _) =>
            match sliceBytes a.file.record_data (a.offset + no) (a.offset + no + nl) with
            | none => none
            | some s => rok s

/-- Source `NtfsAttribute::non_resident_value_data_size`: u64 at non-resident header
offset 48 (`data_size`). -/
def NtfsAttribute.non_resident_value_data_size (a : NtfsAttribute) : Option Nat :=
  readLE a.file.record_data (a.offset + 48) 8

/-- Source `NtfsAttribute::non_resident_value_data_runs_offset`: u16 at non-resident
header offset 32 (`data_runs_offset`). -/
def NtfsAttribute.non_resident_value_data_runs_offset (a : NtfsAttribute) : Option Nat :=
  readLE a.file.record_data (a.offset + 32) 2

/-- Source `NtfsAttribute::non_resident_value_data_and_position`
(src/attribute.rs lines 220-228): `start = offset + data_runs_offset`,
`end = start + attribute_length`, slice `[start, end)` of the record buffer
and the absolute position of `start`. -/
def NtfsAttribute.non_resident_value_data_and_position (a : NtfsAttribute) :
    Option (List Nat × Nat) :=
  match a.non_resident_value_data_runs_offset with
  | none => none
  | some dro =>
    match a.attribute_length with
    | none => none
    | some al =>
      match sliceBytes a.file.record_data (a.offset + dro) (a.offset + dro + al) with
      | none => none
      | some data => some (data, a.file.position + (a.offset + dro))

/-- Source `NtfsAttribute::resident_value_length`: u32 at resident header offset 16. -/
def NtfsAttribute.resident_value_length (a : NtfsAttribute) : Option Nat :=
  readLE a.file.record_data (a.offset + 16) 4

/-- Source `NtfsAttribute::resident_value_offset`: u16 at resident header offset 20. -/
def NtfsAttribute.resident_value_offset (a : NtfsAttribute) : Option Nat :=
  readLE a.file.record_data (a.offset + 20) 2

/-- Source `NtfsAttribute::validate_resident_value_sizes`
(src/attribute.rs lines 348-370). -/
def NtfsAttribute.validate_resident_value_sizes (a : NtfsAttribute) : Res Unit :=
  match a.resident_value_offset with
  | none => none
  | some vo =>
    match a.attribute_length with
    | none => none
    | some al =>
      if al ≤ vo then rerr (.InvalidResidentAttributeValueOffset a.position vo al)
      else
        match a.resident_value_length with
        | none => none
        | some vl =>
          if al < vo + vl then
            rerr (.InvalidResidentAttributeValueLength a.position (vo + vl) al)
          else rok ()

/-- Source `NtfsAttribute::resident_value` (src/attribute.rs lines 274-283):
a slice value `(data, position)` over `[offset + value_offset,
offset + value_offset + value_length)`. -/
def NtfsAttribute.resident_value (a : NtfsAttribute) : Res (List Nat × Nat) :=
  match a.validate_resident_value_sizes with
  | none => none
  | some (.error e) => rerr e
  | some (.ok _) =>
    match a.resident_value_offset with
    | none => none
    | some vo =>
      match a.resident_value_length with
      | none => none
      | some vl =>
        match sliceBytes a.file.record_data (a.offset + vo) (a.offset + vo + vl) with
        | none => none
        | some data => rok (data, a.position)

/-- Source `NtfsValue` (src/value, external): the three value shapes vended by
`NtfsAttribute::value`.  The external readers are kept as the data they are
constructed from (spec section 6). -/
inductive NtfsValue where
  | Slice (data : List Nat) (position : Nat)
  | NonResidentAttribute (data : List Nat) (position : Nat) (data_size : Nat)
  | AttributeListNonResidentAttribute (entries : NtfsAttributeListEntries)
      (instanceNum : Nat) (ty : NtfsAttributeType) (data_size : Nat)
  deriving DecidableEq, Repr

/-- Source `NtfsAttribute::non_resident_value` (src/attribute.rs lines 209-218). -/
def NtfsAttribute.non_resident_value (a : NtfsAttribute) : Res NtfsValue :=
  match a.non_resident_value_data_and_position with
  | none => none
  | some (data, pos) =>
    match a.non_resident_value_data_size with
    | none => none
    | some ds => rok (.NonResidentAttribute data pos ds)

/-- Source `NtfsAttribute::value` (src/attribute.rs lines 373-395): list-backed
non-resident when an attribute-list iterator handle is present, otherwise
resident slice or plain non-resident value. -/
def NtfsAttribute.value (a : NtfsAttribute) : Res NtfsValue :=
  match a.list_entries with
  | some le =>
    match a.non_resident_value_data_size with
    | none => none
    | some ds =>
      match a.instanceNum with
      | none => none
      | some inst =>
        match a.ty with
        | none => none
        | some (.error e) => rerr e
        | some (.ok t) => rok (.AttributeListNonResidentAttribute le inst t ds)
  | none =>
    match a.is_resident with
    | none => none
    | some true =>
      match a.resident_value with
      | none => none
      | some (.error e) => rerr e
      | some (.ok (data, pos)) => rok (.Slice data pos)
    | some false => a.non_resident_value

/-- Source `NtfsAttribute::structured_value` (src/attribute.rs lines 297-312),
parameterised by the external decoder (its type tag `TY` and constructor
`from_value`, spec section 6). -/
def NtfsAttribute.structured_value {σ : Type} (TY : NtfsAttributeType)
    (from_value : NtfsValue → Except NtfsError σ) (a : NtfsAttribute) : Res σ :=
  match a.ty with
  | none => none
  | some (.error e) => rerr e
  | some (.ok t) =>
    if t ≠ TY then rerr (.AttributeOfDifferentType a.position TY t)
    else
      match a.value with
      | none => none
      | some (.error e) => rerr e
      | some (.ok v) => some (from_value v)

/-- Source `NtfsAttribute::resident_structured_value` (src/attribute.rs lines
251-272), parameterised by the external resident decoder. -/
def NtfsAttribute.resident_structured_value {σ : Type} (TY : NtfsAttributeType)
    (from_resident : List Nat → Nat → Except NtfsError σ) (a : NtfsAttribute) : Res σ :=
  match a.ty with
  | none => none
  | some (.error e) => rerr e
  | some (.ok t) =>
    if t ≠ TY then rerr (.AttributeOfDifferentType a.position TY t)
    else
      match a.is_resident with
      | none => none
      | some false => rerr (.UnexpectedNonResidentAttribute a.position)
      | some true =>
        match a.resident_value with
        | none => none
        | some (.error e) => rerr e
        | some (.ok (data, pos)) => some (from_resident data pos)

/-- Source `NtfsAttribute::value_length` (src/attribute.rs lines 398-404). -/
def NtfsAttribute.value_length (a : NtfsAttribute) : Option Nat :=
  match a.is_resident with
  | none => none
  | some true => a.resident_value_length
  | some false => a.non_resident_value_data_size

/-- The raw attribute iterator `NtfsAttributesRaw`
(src/attribute.rs lines 522-534): the file and the remaining
`items_range = start..stop`. -/
structure NtfsAttributesRaw where
  file : NtfsFile
  start : Nat
  stop : Nat
  deriving DecidableEq, Repr

/-- Source `NtfsAttributesRaw::new`: range from `first_attribute_offset`
to `used_size`. -/
def NtfsAttributesRaw.new (f : NtfsFile) : NtfsAttributesRaw :=
  ⟨f, f.first_attribute_offset, f.used_size⟩

/-- Outcome of one raw-iterator step: halt (`None`), a panic of an unchecked
read, or a yielded cursor with the successor state. -/
inductive RawStep where
  | halt
  | panic
  | yield (attr : NtfsAttribute) (s : NtfsAttributesRaw)
  deriving DecidableEq, Repr

/-- Source `<NtfsAttributesRaw as Iterator>::next` (src/attribute.rs lines 540-557):
halt on an empty range, read the 4-byte type word at the cursor from the whole
record buffer, halt on the end marker, otherwise yield a cursor and advance by
its `attribute_length`. -/
def NtfsAttributesRaw.next (s : NtfsAttributesRaw) : RawStep :=
  if s.stop ≤ s.start then .halt
  else
    match readLE s.file.record_data s.start 4 with
    | none => .panic
    | some ty =>
      if ty = 0xFFFFFFFF then .halt
      else
        match (⟨s.file, s.start, none⟩ : NtfsAttribute).attribute_length with
        | none => .panic
        | some len => .yield ⟨s.file, s.start, none⟩ ⟨s.file, s.start + len, s.stop⟩

/-- The filesystem handle as the attribute layer consumes it.
Modelled from the spec: the record loader (section 6, `file(record_number)`)
is a partial map from record numbers to loaded records, and the external
`NtfsAttributeList::from_value` structured-value decoder (not under src)
turns the decoded list value into its entries iterator. -/
structure Ntfs where
  files : List (Nat × NtfsFile)
  attr_list_from_value : NtfsValue → Except NtfsError NtfsAttributeListEntries

/-- Modelled from the spec: `NtfsAttributeListEntry::to_file` (section 4.3)
resolves the base file reference through the external record loader, which
may fail. -/
def NtfsAttributeListEntry.to_file (ntfs : Ntfs) (e : NtfsAttributeListEntry) :
    Except NtfsError NtfsFile :=
  match ntfs.files.lookup e.base_record_number with
  | some f => .ok f
  | none => .error (.FileNotFound e.base_record_number)

/-- Search loop of `to_attribute`: walk the raw attribute stream of the entry
file, fuelled by the record size (a malformed record that would make the raw
walk loop reports a missing match). -/
def NtfsAttributeListEntry.to_attribute_go (e : NtfsAttributeListEntry) :
    Nat → NtfsAttributesRaw → Res NtfsAttribute
  | 0, _ => rerr (.AttributeNotFound e.position e.ty_code e.instanceNum)
  | n + 1, s =>
    match s.next with
    | .halt => rerr (.AttributeNotFound e.position e.ty_code e.instanceNum)
    | .panic => none
    | .yield a s1 =>
      match a.instanceNum with
      | none => none
      | some i =>
        if i = e.instanceNum then rok a else e.to_attribute_go n s1

/-- Modelled from the spec: `NtfsAttributeListEntry::to_attribute`
(section 4.3) searches the raw attribute stream of the resolved file for the
attribute with the matching instance id; a missing match is
`AttributeNotFound`. -/
def NtfsAttributeListEntry.to_attribute (e : NtfsAttributeListEntry) (f : NtfsFile) :
    Res NtfsAttribute :=
  e.to_attribute_go (f.record_data.length + 1) (NtfsAttributesRaw.new f)

/-- Source `NtfsAttributeItem` (src/attribute.rs lines 500-506). -/
structure NtfsAttributeItem where
  attribute_file : NtfsFile
  attribute_value_file : Option NtfsFile
  attribute_offset : Nat
  list_entries : Option NtfsAttributeListEntries
  deriving DecidableEq, Repr

/-- Source `NtfsAttributeItem::to_attribute` (src/attribute.rs lines 508-520). -/
def NtfsAttributeItem.to_attribute (it : NtfsAttributeItem) : NtfsAttribute :=
  match it.attribute_value_file with
  | some f => ⟨f, it.attribute_offset, it.list_entries⟩
  | none => ⟨it.attribute_file, it.attribute_offset, it.list_entries⟩

/-- The logical attribute iterator `NtfsAttributes`
(src/attribute.rs lines 407-411). -/
structure NtfsAttributes where
  raw_iter : NtfsAttributesRaw
  list_entries : Option NtfsAttributeListEntries
  list_skip_info : Option (Nat × NtfsAttributeType)
  deriving DecidableEq, Repr

/-- Source `NtfsAttributes::new` (src/attribute.rs lines 413-420). -/
def NtfsAttributes.new (f : NtfsFile) : NtfsAttributes :=
  ⟨NtfsAttributesRaw.new f, none, none⟩

/-- Outcome of the inner loop over attribute-list entries inside
`NtfsAttributes::next` (src/attribute.rs lines 427-479).  A yield records the
consumed entry, the resolved file, the attribute offset, the optional cloned
iterator attached to the item, the remaining entries and the updated skip
info; an error records the remaining entries and the updated skip info. -/
inductive InnerStep where
  | fallthrough (skip : Option (Nat × NtfsAttributeType))
  | panic
  | error (e : NtfsError) (rest : List (Except NtfsError NtfsAttributeListEntry))
      (skip : Option (Nat × NtfsAttributeType))
  | yield (entry : NtfsAttributeListEntry) (entry_file : NtfsFile)
      (attribute_offset : Nat) (lst : Option NtfsAttributeListEntries)
      (rest : List (Except NtfsError NtfsAttributeListEntry))
      (skip : Option (Nat × NtfsAttributeType))
  deriving DecidableEq, Repr

/-- Does the skip key of `list_skip_info` match this entry? -/
def skipMatches (skip : Option (Nat × NtfsAttributeType)) (inst : Nat)
    (t : NtfsAttributeType) : Bool :=
  match skip with
  | none => false
  | some (si, st) => inst = si ∧ t = st

/-- The inner loop of `NtfsAttributes::next` (src/attribute.rs lines
427-479): clone the iterator before each step, pop an entry, report decode
errors, skip entries that repeat the base record and entries matching the
skip key, clear the skip key, resolve the entry to a file and an attribute,
and yield — attaching the clone and arming the skip key when the resolved
attribute is non-resident. -/
def processEntries (ntfs : Ntfs) (base : NtfsFile)
    (skip : Option (Nat × NtfsAttributeType)) :
    List (Except NtfsError NtfsAttributeListEntry) → InnerStep
  | [] => .fallthrough skip
  | r :: rest =>
    let clone : NtfsAttributeListEntries := ⟨r :: rest⟩
    match r with
    | .error e => .error e [] skip
    | .ok entry =>
      match NtfsAttributeType.n entry.ty_code with
      | none => .error (.UnsupportedAttributeType entry.position entry.ty_code) rest skip
      | some entry_ty =>
        if entry.base_record_number = base.file_record_number then
          processEntries ntfs base skip rest
        else if skipMatches skip entry.instanceNum entry_ty then
          processEntries ntfs base skip rest
        else
          match entry.to_file ntfs with
          | .error e => .error e rest none
          | .ok entry_file =>
            match entry.to_attribute entry_file with
            | none => .panic
            | some (.error e) => .error e rest none
            | some (.ok entry_attribute) =>
              match entry_attribute.is_resident with
              | none => .panic
              | some true =>
                .yield entry entry_file entry_attribute.offset none rest none
              | some false =>
                .yield entry entry_file entry_attribute.offset (some clone) rest
                  (some (entry.instanceNum, entry_ty))

/-- Outcome of one logical-iterator step: halt (`None`), a panic, an error
result or a yielded item, each with the successor state; `outOfFuel` marks
that the Rust loop ran longer than the given fuel. -/
inductive LStep where
  | halt
  | panic
  | outOfFuel
  | error (e : NtfsError) (s : NtfsAttributes)
  | yield (item : NtfsAttributeItem) (s : NtfsAttributes)
  deriving DecidableEq, Repr

/-- List phase of `NtfsAttributes::next` (src/attribute.rs lines 427-480):
when a list iterator is active, run the inner loop; either finish the step
(left) or fall through to the raw phase with the updated state (right). -/
def NtfsAttributes.listPhase (ntfs : Ntfs) (s : NtfsAttributes) :
    LStep ⊕ NtfsAttributes :=
  match s.list_entries with
  | none => .inr s
  | some le =>
    match processEntries ntfs s.raw_iter.file s.list_skip_info le.entries with
    | .fallthrough skip => .inr ⟨s.raw_iter, some ⟨[]⟩, skip⟩
    | .panic => .inl .panic
    | .error e rest skip => .inl (.error e ⟨s.raw_iter, some ⟨rest⟩, skip⟩)
    | .yield _ ef off lst rest skip =>
      .inl (.yield ⟨s.raw_iter.file, some ef, off, lst⟩ ⟨s.raw_iter, some ⟨rest⟩, skip⟩)

/-- Raw phase of `NtfsAttributes::next` (src/attribute.rs lines 482-496):
pull the next raw attribute; on an `AttributeList` attribute decode it,
install its entries iterator and continue the loop (right), otherwise finish
the step (left). -/
def NtfsAttributes.rawPhase (ntfs : Ntfs) (s1 : NtfsAttributes) :
    LStep ⊕ NtfsAttributes :=
  match s1.raw_iter.next with
  | .halt => .inl .halt
  | .panic => .inl .panic
  | .yield attr raw1 =>
    match attr.ty with
    | none => .inl .panic
    | some (.ok .AttributeList) =>
      match attr.structured_value .AttributeList ntfs.attr_list_from_value with
      | none => .inl .panic
      | some (.error e) => .inl (.error e ⟨raw1, s1.list_entries, s1.list_skip_info⟩)
      | some (.ok entries) => .inr ⟨raw1, some entries, s1.list_skip_info⟩
    | some _ =>
      .inl (.yield ⟨raw1.file, none, attr.offset, none⟩
        ⟨raw1, s1.list_entries, s1.list_skip_info⟩)

/-- Source `NtfsAttributes::next` (src/attribute.rs lines 422-497).  The outer
Rust `loop` is fuelled; one fuel unit is one pass of the loop body (list
phase followed by the raw phase). -/
def NtfsAttributes.next (ntfs : Ntfs) : Nat → NtfsAttributes → LStep
  | 0, _ => .outOfFuel
  | fuel + 1, s =>
    match NtfsAttributes.listPhase ntfs s with
    | .inl r => r
    | .inr s1 =>
      match NtfsAttributes.rawPhase ntfs s1 with
      | .inl r => r
      | .inr s3 => NtfsAttributes.next ntfs fuel s3

/-- Refinement reference for the non-resident value slice, following the
words of the spec (section 4.1, value case 3): the byte slice
`[data_runs_offset, attribute_length)` of the record relative to the
attribute header. -/
def spec_non_resident_value_slice (a : NtfsAttribute) : Option (List Nat) :=
  match a.non_resident_value_data_runs_offset with
  | none => none
  | some dro =>
    match a.attribute_length with
    | none => none
    | some al => sliceBytes a.file.record_data (a.offset + dro) (a.offset + al)

/-- Concrete record holding one well-formed non-resident attribute at offset 0:
type 0x80 (Data), attribute_length 0x48, non-resident, instance 3,
data_runs_offset 0x40, data_size 0x100, run bytes at offsets 64..72,
padding bytes 0x99 from offset 72 on. -/
def F1 : NtfsFile :=
  ⟨[0x80, 0, 0, 0, 0x48, 0, 0, 0, 1, 0, 0, 0, 0, 0, 3, 0]
    ++ List.replicate 16 0
    ++ [0x40, 0, 0, 0, 0, 0, 0, 0]
    ++ List.replicate 8 0
    ++ [0, 1, 0, 0, 0, 0, 0, 0]
    ++ List.replicate 8 0
    ++ [0x11, 0x22, 0x33, 0x44, 0x55, 0x66, 0x77, 0x88]
    ++ List.replicate 88 0x99, 1000, 72, 0, 5⟩

/-- Cursor over the attribute of `F1`, with no list iterator attached. -/
def attrC1 : NtfsAttribute := ⟨F1, 0, none⟩

/-- Slice the code under test extracts for the value of `attrC1`:
72 bytes starting at the data runs, overrunning the end of the attribute. -/
def c1_code_data : List Nat :=
  [0x11, 0x22, 0x33, 0x44, 0x55, 0x66, 0x77, 0x88] ++ List.replicate 64 0x99

/-- Slice the spec prescribes for the value of `attrC1`: the 8 run bytes
between `data_runs_offset` and `attribute_length`. -/
def c1_spec_data : List Nat := [0x11, 0x22, 0x33, 0x44, 0x55, 0x66, 0x77, 0x88]

/-- Cursor over the attribute of `F1` with an (empty) attribute-list iterator
handle attached. -/
def attrC5 : NtfsAttribute := ⟨F1, 0, some ⟨[]⟩⟩

/-- Concrete malformed record whose single attribute declares
`attribute_length = 0` (type word 0x10, length word 0). -/
def F2 : NtfsFile :=
  ⟨[0x10, 0, 0, 0, 0, 0, 0, 0] ++ List.replicate 16 0, 2000, 24, 0, 7⟩

/-- Concrete record whose used region ends after 2 bytes while the end marker
continues past `used_size`: bytes 0xFF 0xFF | 0xFF 0xFF. -/
def F9a : NtfsFile := ⟨[0xFF, 0xFF, 0xFF, 0xFF, 0, 0, 0, 0], 3000, 2, 0, 8⟩

/-- Concrete record identical to `F9a` inside the used region but with
different bytes beyond `used_size`: 0xFF 0xFF | 0x00 0x00 0x30 0 0 0. -/
def F9b : NtfsFile := ⟨[0xFF, 0xFF, 0, 0, 0x30, 0, 0, 0], 3000, 2, 0, 8⟩

/-- Concrete record whose physical buffer (3 bytes) ends before the 4-byte
end-marker read, with `used_size` claiming more. -/
def F9c : NtfsFile := ⟨[0xFF, 0xFF, 0xFF], 3000, 10, 0, 9⟩

/-- Shape of a raw-iterator step: constructor plus the yielded offset and the
successor cursor, ignoring the `stop` bound carried in the state. -/
inductive RawShape where
  | halt
  | panic
  | yield (offset nextStart : Nat)
  deriving DecidableEq, Repr

/-- Project a raw step to its shape. -/
def RawStep.shape : RawStep → RawShape
  | .halt => .halt
  | .panic => .panic
  | .yield a s => .yield a.offset s.start

/-- Concrete record whose attribute at offset 0 carries flags word 0x5237. -/
def F10 : NtfsFile :=
  ⟨[0x80, 0, 0, 0, 0x18, 0, 0, 0, 0, 0, 0, 0, 0x37, 0x52, 4, 0], 4000, 16, 0, 11⟩

/-- Cursor over the attribute of `F10`. -/
def attrC10 : NtfsAttribute := ⟨F10, 0, none⟩

/-- Concrete record with a named resident attribute at offset 0:
attribute_length 0x20, two-character name (UTF-16LE bytes 0x41 0x00 0x42
0x00) at name_offset 24. -/
def F6 : NtfsFile :=
  ⟨[0x30, 0, 0, 0, 0x20, 0, 0, 0, 0, 2, 24, 0, 0, 0, 1, 0]
    ++ List.replicate 8 0
    ++ [0x41, 0, 0x42, 0]
    ++ List.replicate 4 0, 5000, 32, 0, 12⟩

/-- Cursor over the named attribute of `F6`. -/
def attrC6 : NtfsAttribute := ⟨F6, 0, none⟩

/-- Concrete base record number 1 with an empty attribute area, used as the
base file of logical-iterator scenarios. -/
def BF : NtfsFile := ⟨List.replicate 24 0, 6000, 24, 24, 1⟩

/-- Concrete extension record number 42 holding a resident attribute with
instance 3 at offset 0, followed by the end marker. -/
def EF : NtfsFile :=
  ⟨[0x80, 0, 0, 0, 0x18, 0, 0, 0, 0, 0, 0, 0, 0, 0, 3, 0]
    ++ [0, 0, 0, 0, 0x18, 0, 0, 0]
    ++ [0xFF, 0xFF, 0xFF, 0xFF], 7000, 28, 0, 42⟩

/-- Concrete extension record number 43 holding a non-resident attribute with
instance 7 at offset 0, followed by the end marker. -/
def EFN : NtfsFile :=
  ⟨[0x80, 0, 0, 0, 0x18, 0, 0, 0, 1, 0, 0, 0, 0, 0, 7, 0]
    ++ List.replicate 8 0
    ++ [0xFF, 0xFF, 0xFF, 0xFF], 7100, 28, 0, 43⟩

/-- Concrete list entry with an unknown attribute type code 0x25. -/
def badEntry : NtfsAttributeListEntry := ⟨0x25, [], 0, 42, 0, 3, 7777⟩

/-- Concrete list entry resolving to the resident attribute (instance 3) of
record 42. -/
def goodEntry : NtfsAttributeListEntry := ⟨0x80, [], 0, 42, 1, 3, 7778⟩

/-- Concrete list entry resolving to the non-resident attribute (instance 7)
of record 43. -/
def nrEntry : NtfsAttributeListEntry := ⟨0x80, [], 0, 43, 0, 7, 7779⟩

/-- Concrete filesystem handle with records 42 and 43 loadable. -/
def ntfsA : Ntfs := ⟨[(42, EF), (43, EFN)], fun _ => .error (.FileNotFound 999)⟩

/-- Logical-iterator state over base `BF` whose active list iterator holds a
bad entry followed by a good one. -/
def s3 : NtfsAttributes := ⟨⟨BF, 24, 24⟩, some ⟨[.ok badEntry, .ok goodEntry]⟩, none⟩

/-- State after the error step on `s3`. -/
def s3after : NtfsAttributes := ⟨⟨BF, 24, 24⟩, some ⟨[.ok goodEntry]⟩, none⟩

/-- Item resolved from `goodEntry`: the resident attribute of record 42. -/
def item3 : NtfsAttributeItem := ⟨BF, some EF, 0, none⟩

/-- State after the yield step on `s3after`. -/
def s3final : NtfsAttributes := ⟨⟨BF, 24, 24⟩, some ⟨[]⟩, none⟩

/-- Logical-iterator state over base `BF` whose active list iterator repeats
the same entry twice. -/
def s4 : NtfsAttributes := ⟨⟨BF, 24, 24⟩, some ⟨[.ok goodEntry, .ok goodEntry]⟩, none⟩

/-- State after the first yield on `s4`. -/
def s4b : NtfsAttributes := ⟨⟨BF, 24, 24⟩, some ⟨[.ok goodEntry]⟩, none⟩

/-- State after the second yield on `s4`. -/
def s4c : NtfsAttributes := ⟨⟨BF, 24, 24⟩, some ⟨[]⟩, none⟩

/-- Item resolved from `goodEntry` in the C4 scenario. -/
def item4 : NtfsAttributeItem := ⟨BF, some EF, 0, none⟩

/-- Logical-iterator state over base `BF` whose active list iterator holds
one entry resolving to a non-resident attribute. -/
def s8 : NtfsAttributes := ⟨⟨BF, 24, 24⟩, some ⟨[.ok nrEntry]⟩, none⟩

/-- Item resolved from `nrEntry`: the non-resident attribute of record 43,
carrying the cloned list iterator. -/
def item8 : NtfsAttributeItem := ⟨BF, some EFN, 0, some ⟨[.ok nrEntry]⟩⟩

/-- State after the yield step on `s8`: the skip key is armed. -/
def s8b : NtfsAttributes := ⟨⟨BF, 24, 24⟩, some ⟨[]⟩, some (7, .Data)⟩

/-- Claim C1 (code bug demonstrated): on the concrete non-resident attribute
`attrC1` (data_runs_offset 0x40, attribute_length 0x48), the code builds the
non-resident value from the byte slice that starts at the data runs but runs
for a further `attribute_length` bytes (72 bytes, overrunning the end of the
attribute into the padding), not the slice `[data_runs_offset,
attribute_length)` of 8 bytes that the spec prescribes; position and
data_size are as specified. -/
theorem c1_non_resident_value_slice_overruns :
    attrC1.value = rok (.NonResidentAttribute c1_code_data 1064 256) ∧
    spec_non_resident_value_slice attrC1 = some c1_spec_data ∧
    c1_code_data ≠ c1_spec_data ∧
    c1_code_data.length = 72 ∧
    c1_spec_data.length = 8 := by
  refine ⟨by decide, by decide, by decide, by decide, by decide⟩

/-- Claim C2 (code bug demonstrated): on the concrete record `F2` whose
attribute declares `attribute_length = 0`, one raw-iterator step yields a
cursor and leaves the iterator state unchanged, so every further step yields
the same cursor at the same offset: offsets are not strictly increasing and
the iterator never halts — and `RawStep` shows the step has no error result
at all, so it cannot halt with an error as the claim requires. -/
theorem c2_raw_iterator_loops_on_zero_length :
    NtfsAttributesRaw.next (NtfsAttributesRaw.new F2) =
      RawStep.yield ⟨F2, 0, none⟩ (NtfsAttributesRaw.new F2) := by
  decide

/-- Claim C9 (confirmed): with a non-empty remaining range, the raw-iterator
step is insensitive to `used_size` (first conjunct: two states over the same
buffer that differ only in `used_size` step to the same shape), the end-marker
check consults bytes beyond `used_size` (records `F9a` and `F9b` agree on the
used region yet one halts on the end marker and the other yields), the
yielded cursor's fixed-offset `attribute_length` read is taken from beyond
`used_size` without a bounds check, and a read past the physical end of the
buffer panics (`F9c`). -/
theorem c9_raw_reads_unbounded_by_used_size :
    (∀ (d : List Nat) (p u₁ u₂ fa fr st : Nat), st < u₁ → st < u₂ →
      (NtfsAttributesRaw.next ⟨⟨d, p, u₁, fa, fr⟩, st, u₁⟩).shape =
        (NtfsAttributesRaw.next ⟨⟨d, p, u₂, fa, fr⟩, st, u₂⟩).shape) ∧
    F9a.record_data.take F9a.used_size = F9b.record_data.take F9b.used_size ∧
    F9a.used_size = F9b.used_size ∧
    NtfsAttributesRaw.next (NtfsAttributesRaw.new F9a) = RawStep.halt ∧
    NtfsAttributesRaw.next (NtfsAttributesRaw.new F9b) =
      RawStep.yield ⟨F9b, 0, none⟩ ⟨F9b, 48, 2⟩ ∧
    (⟨F9b, 0, none⟩ : NtfsAttribute).attribute_length = some 48 ∧
    NtfsAttributesRaw.next (NtfsAttributesRaw.new F9c) = RawStep.panic := by
  refine ⟨?_, by decide, by decide, by decide, by decide, by decide, by decide⟩
  intro d p u₁ u₂ fa fr st h₁ h₂
  simp only [NtfsAttributesRaw.next, Nat.not_le.mpr h₁, Nat.not_le.mpr h₂, if_false]
  cases readLE d st 4 with
  | none => rfl
  | some ty =>
    by_cases hty : ty = 0xFFFFFFFF
    · simp [hty]
    · simp only [hty, if_false]
      cases h : (⟨⟨d, p, u₁, fa, fr⟩, st, none⟩ : NtfsAttribute).attribute_length with
      | none =>
        have h2 : (⟨⟨d, p, u₂, fa, fr⟩, st, none⟩ : NtfsAttribute).attribute_length = none := h
        simp [h, h2]
      | some len =>
        have h2 : (⟨⟨d, p, u₂, fa, fr⟩, st, none⟩ : NtfsAttribute).attribute_length =
          some len := h
        simp [h, h2, RawStep.shape]

/-- Witness for claim C9: the insensitivity conjunct applied at the buffer of
`F9b` with used sizes 2 and 6. -/
theorem c9_witness :
    (NtfsAttributesRaw.next ⟨⟨F9b.record_data, 3000, 2, 0, 8⟩, 0, 2⟩).shape =
      (NtfsAttributesRaw.next ⟨⟨F9b.record_data, 3000, 6, 0, 8⟩, 0, 6⟩).shape :=
  c9_raw_reads_unbounded_by_used_size.1 F9b.record_data 3000 2 6 0 8 0
    (by decide) (by decide)

/-- Claim C10 (confirmed): `flags` never produces an error — whenever the
16-bit flags read succeeds it returns the word masked to the known bits
0x0001 (COMPRESSED), 0x4000 (ENCRYPTED) and 0x8000 (SPARSE): every other set
bit is silently discarded (any set bit of the result sits at position 0, 14
or 15, and those three positions pass through unchanged). -/
theorem c10_flags_truncate (a : NtfsAttribute) (w : Nat)
    (h : readLE a.file.record_data (a.offset + 12) 2 = some w) :
    a.flags = some (w &&& 0xC001) ∧
    (∀ i : Nat, (w &&& 0xC001).testBit i = true → i = 0 ∨ i = 14 ∨ i = 15) ∧
    (w &&& 0xC001).testBit 0 = w.testBit 0 ∧
    (w &&& 0xC001).testBit 14 = w.testBit 14 ∧
    (w &&& 0xC001).testBit 15 = w.testBit 15 := by
  refine ⟨?_, ?_, ?_, ?_, ?_⟩
  · simp only [NtfsAttribute.flags, h, NtfsAttributeFlags.from_bits_truncate,
      NtfsAttributeFlags.COMPRESSED, NtfsAttributeFlags.ENCRYPTED,
      NtfsAttributeFlags.SPARSE]
    rw [show (1 ||| 16384 ||| 32768 : Nat) = 49153 from by decide]
  · intro i hi
    rw [Nat.testBit_and] at hi
    have hm : (0xC001 : Nat).testBit i = true := (Bool.and_eq_true _ _ |>.mp hi).2
    by_cases hlt : i < 16
    · interval_cases i <;> revert hm <;> decide
    · exfalso
      have : (0xC001 : Nat) < 2 ^ i := by
        calc (0xC001 : Nat) < 2 ^ 16 := by norm_num
        _ ≤ 2 ^ i := Nat.pow_le_pow_right (by norm_num) (by omega)
      rw [Nat.testBit_lt_two_pow this] at hm
      exact Bool.false_ne_true hm
  · rw [Nat.testBit_and, show (0xC001 : Nat).testBit 0 = true from by decide,
      Bool.and_true]
  · rw [Nat.testBit_and, show (0xC001 : Nat).testBit 14 = true from by decide,
      Bool.and_true]
  · rw [Nat.testBit_and, show (0xC001 : Nat).testBit 15 = true from by decide,
      Bool.and_true]

/-- Witness for claim C10: the attribute of `F10` carries the flags word
0x5237; the result keeps exactly the COMPRESSED and ENCRYPTED bits. -/
theorem c10_witness :
    attrC10.flags = some (0x5237 &&& 0xC001) ∧
    (∀ i : Nat, ((0x5237 : Nat) &&& 0xC001).testBit i = true →
      i = 0 ∨ i = 14 ∨ i = 15) ∧
    ((0x5237 : Nat) &&& 0xC001).testBit 0 = (0x5237 : Nat).testBit 0 ∧
    ((0x5237 : Nat) &&& 0xC001).testBit 14 = (0x5237 : Nat).testBit 14 ∧
    ((0x5237 : Nat) &&& 0xC001).testBit 15 = (0x5237 : Nat).testBit 15 :=
  c10_flags_truncate attrC10 0x5237 (by decide)

/-- Claim C5 (confirmed): a cursor carrying an attribute-list iterator handle
vends the list-backed non-resident value built from that iterator (cloned),
the cursor's instance id, its type, and the `data_size` read from this first
attribute's own non-resident header (the u64 at non-resident header offset
48, second conjunct). -/
theorem c5_value_list_backed (a : NtfsAttribute) (le : NtfsAttributeListEntries)
    (ds inst : Nat) (t : NtfsAttributeType)
    (hle : a.list_entries = some le)
    (hds : a.non_resident_value_data_size = some ds)
    (hinst : a.instanceNum = some inst)
    (hty : a.ty = rok t) :
    a.value = rok (.AttributeListNonResidentAttribute le inst t ds) ∧
    a.non_resident_value_data_size = readLE a.file.record_data (a.offset + 48) 8 := by
  constructor
  · rw [NtfsAttribute.value, hle, hds, hinst, hty]
    rfl
  · rfl

/-- Witness for claim C5: the non-resident attribute of `F1` with an empty
list iterator attached yields the list-backed value with instance 3, type
Data and total data size 0x100. -/
theorem c5_witness :
    attrC5.value = rok (.AttributeListNonResidentAttribute ⟨[]⟩ 3 .Data 256) ∧
    attrC5.non_resident_value_data_size =
      readLE attrC5.file.record_data (attrC5.offset + 48) 8 :=
  c5_value_list_backed attrC5 ⟨[]⟩ 256 3 .Data (by decide) (by decide) (by decide)
    (by decide)

/-- Claim C6 (confirmed): `name` returns an empty slice without validation
when `name_offset` or `name_length` is zero; otherwise it validates
`name_offset < attribute_length` (else `InvalidAttributeNameOffset` at the
attribute's absolute position) and `name_offset + name_length ≤
attribute_length` (else `InvalidAttributeNameLength` at that position, with
`name_length` already in bytes, i.e. twice the character count), and on
success returns exactly the byte slice
`record_data[offset + name_offset .. offset + name_offset + name_length]`. -/
theorem c6_name_validation_and_slice (a : NtfsAttribute) (no nl al : Nat)
    (hno : a.name_offset = some no) (hnl : a.name_length = some nl)
    (hal : a.attribute_length = some al) :
    (no = 0 → a.name = rok []) ∧
    (nl = 0 → a.name = rok []) ∧
    (no ≠ 0 → nl ≠ 0 → al ≤ no →
      a.name = rerr (.InvalidAttributeNameOffset a.position no al)) ∧
    (no ≠ 0 → nl ≠ 0 → no < al → al < no + nl →
      a.name = rerr (.InvalidAttributeNameLength a.position (no + nl) al)) ∧
    (no ≠ 0 → nl ≠ 0 → no < al → no + nl ≤ al →
      a.offset + no + nl ≤ a.file.record_data.length →
      a.name = rok ((a.file.record_data.drop (a.offset + no)).take nl)) := by
  refine ⟨?_, ?_, ?_, ?_, ?_⟩
  · intro h0
    simp only [NtfsAttribute.name, hno, h0, if_pos rfl, eq_self_iff_true, if_true]
  · intro h0
    by_cases hz : no = 0
    · simp only [NtfsAttribute.name, hno, hz, if_pos rfl, eq_self_iff_true, if_true]
    · simp only [NtfsAttribute.name, hno, if_neg hz, hnl, h0, if_pos rfl,
        eq_self_iff_true, if_true]
  · intro h1 h2 h3
    simp only [NtfsAttribute.name, NtfsAttribute.validate_name_sizes, hno, hnl,
      hal, if_neg h1, if_neg h2, if_pos h3]
    rfl
  · intro h1 h2 h3 h4
    simp only [NtfsAttribute.name, NtfsAttribute.validate_name_sizes, hno, hnl,
      hal, if_neg h1, if_neg h2, if_neg (show ¬al ≤ no by omega), if_pos h4]
    rfl
  · intro h1 h2 h3 h4 h5
    have hc : a.offset + no ≤ a.offset + no + nl ∧
        a.offset + no + nl ≤ a.file.record_data.length := ⟨by omega, h5⟩
    have hs : sliceBytes a.file.record_data (a.offset + no) (a.offset + no + nl) =
        some ((a.file.record_data.drop (a.offset + no)).take nl) := by
      have harith : a.offset + no + nl - (a.offset + no) = nl := by omega
      rw [sliceBytes, if_pos hc, harith]
    simp only [NtfsAttribute.name, NtfsAttribute.validate_name_sizes, hno, hnl,
      hal, if_neg h1, if_neg h2, if_neg (show ¬al ≤ no by omega),
      if_neg (show ¬al < no + nl by omega), hs]
    rfl

/-- Witness for claim C6: a named attribute with `name_offset = 0x18`,
`name_length` of two characters (4 bytes) and `attribute_length = 0x20`
yields the 4 name bytes at offsets 24..28 of the record. -/
theorem c6_witness :
    (24 ≠ 0 → 4 ≠ 0 → 24 < 32 → 24 + 4 ≤ 32 →
      attrC6.offset + 24 + 4 ≤ attrC6.file.record_data.length →
      attrC6.name = rok ((attrC6.file.record_data.drop (attrC6.offset + 24)).take 4)) ∧
    attrC6.name = rok [0x41, 0, 0x42, 0] :=
  ⟨(c6_name_validation_and_slice attrC6 24 4 32 (by decide) (by decide)
      (by decide)).2.2.2.2,
   by
    have h := (c6_name_validation_and_slice attrC6 24 4 32 (by decide) (by decide)
      (by decide)).2.2.2.2 (by decide) (by decide) (by decide) (by decide) (by decide)
    rw [h]
    decide⟩

/-- Claim C7 (confirmed): both typed accessors fail with
`AttributeOfDifferentType` (carrying position, expected and actual types)
when the cursor's type differs from the decoder's type tag; the resident
variant additionally fails with `UnexpectedNonResidentAttribute` when the
attribute is not resident; otherwise construction is delegated to the
external decoder (`from_value` on the dispatched value, respectively
`from_resident` on the resident slice value). -/
theorem c7_typed_accessor_checks {σ : Type} (TY : NtfsAttributeType)
    (fv : NtfsValue → Except NtfsError σ) (frv : List Nat → Nat → Except NtfsError σ)
    (a : NtfsAttribute) (t : NtfsAttributeType) (hty : a.ty = rok t) :
    (t ≠ TY →
      a.structured_value TY fv = rerr (.AttributeOfDifferentType a.position TY t) ∧
      a.resident_structured_value TY frv =
        rerr (.AttributeOfDifferentType a.position TY t)) ∧
    (t = TY → a.is_resident = some false →
      a.resident_structured_value TY frv =
        rerr (.UnexpectedNonResidentAttribute a.position)) ∧
    (t = TY → ∀ v, a.value = rok v → a.structured_value TY fv = some (fv v)) ∧
    (t = TY → a.is_resident = some true → ∀ d p, a.resident_value = rok (d, p) →
      a.resident_structured_value TY frv = some (frv d p)) := by
  refine ⟨?_, ?_, ?_, ?_⟩
  · intro hne
    constructor
    · simp only [NtfsAttribute.structured_value, hty, rok, if_pos hne]
    · simp only [NtfsAttribute.resident_structured_value, hty, rok, if_pos hne]
  · intro heq hres
    simp only [NtfsAttribute.resident_structured_value, hty, rok, heq, ne_eq,
      not_true_eq_false, if_false, hres]
  · intro heq v hv
    simp only [NtfsAttribute.structured_value, hty, rok, heq, ne_eq,
      not_true_eq_false, if_false, hv]
  · intro heq hres d p hv
    simp only [NtfsAttribute.resident_structured_value, hty, rok, heq, ne_eq,
      not_true_eq_false, if_false, hres, hv]

/-- Witness for claim C7: the Data attribute of `F1` accessed with a FileName
decoder fails with `AttributeOfDifferentType` in both accessors. -/
theorem c7_witness :
    attrC1.structured_value .FileName (fun _ => Except.ok (0 : Nat)) =
      rerr (.AttributeOfDifferentType attrC1.position .FileName .Data) ∧
    attrC1.resident_structured_value .FileName (fun _ _ => Except.ok (0 : Nat)) =
      rerr (.AttributeOfDifferentType attrC1.position .FileName .Data) :=
  (c7_typed_accessor_checks .FileName (fun _ => Except.ok (0 : Nat))
    (fun _ _ => Except.ok (0 : Nat)) attrC1 .Data (by decide)).1 (by decide)

/-- Helper: a raw-iterator yield vends a cursor into the iterator's own file,
and the successor state stays on that file. -/
theorem NtfsAttributesRaw.next_yield_file (s : NtfsAttributesRaw)
    (a : NtfsAttribute) (s1 : NtfsAttributesRaw) (h : s.next = .yield a s1) :
    a.file = s.file ∧ s1.file = s.file := by
  rw [NtfsAttributesRaw.next] at h
  split at h
  · cases h
  · split at h
    · cases h
    · split at h
      · cases h
      · split at h
        · cases h
        · cases h
          exact ⟨rfl, rfl⟩


/-- Helper: a successful `to_attribute_go` search returns a cursor into the
file the searched raw iterator ranges over. -/
theorem NtfsAttributeListEntry.to_attribute_go_file (e : NtfsAttributeListEntry) :
    ∀ (n : Nat) (s : NtfsAttributesRaw) (a : NtfsAttribute),
      e.to_attribute_go n s = rok a → a.file = s.file := by
  intro n
  induction n with
  | zero =>
    intro s a h
    rw [NtfsAttributeListEntry.to_attribute_go] at h
    cases h
  | succ m ih =>
    intro s a h
    rw [NtfsAttributeListEntry.to_attribute_go] at h
    cases hrn : s.next with
    | halt =>
      simp only [hrn] at h
      exact Except.noConfusion (Option.some.inj h)
    | panic =>
      simp only [hrn] at h
      exact Option.noConfusion h
    | yield a0 s1 =>
      simp only [hrn] at h
      obtain ⟨ha0, hs1⟩ := NtfsAttributesRaw.next_yield_file s a0 s1 hrn
      cases hinst : a0.instanceNum with
      | none =>
        simp only [hinst] at h
        exact Option.noConfusion h
      | some i =>
        simp only [hinst] at h
        by_cases hi : i = e.instanceNum
        · rw [if_pos hi] at h
          injection h with h2
          injection h2 with h3
          rw [← h3]
          exact ha0
        · rw [if_neg hi] at h
          rw [ih s1 a h, hs1]

/-- Helper: a successful `to_attribute` resolution returns a cursor into the
resolved entry file. -/
theorem NtfsAttributeListEntry.to_attribute_file (e : NtfsAttributeListEntry)
    (f : NtfsFile) (a : NtfsAttribute) (h : e.to_attribute f = rok a) :
    a.file = f :=
  e.to_attribute_go_file (f.record_data.length + 1) (NtfsAttributesRaw.new f) a h

/-- Helper: a list-phase yield that carries an attribute-list iterator handle
resolved an attribute whose `is_resident` check returned `false`; any cursor
over the yielded file and offset therefore reads non-resident, whatever
iterator handle it carries. -/
theorem processEntries_yield_attached (ntfs : Ntfs) (base : NtfsFile)
    (skip : Option (Nat × NtfsAttributeType)) :
    ∀ (l : List (Except NtfsError NtfsAttributeListEntry))
      (e : NtfsAttributeListEntry) (ef : NtfsFile) (off : Nat)
      (lst : NtfsAttributeListEntries)
      (rest : List (Except NtfsError NtfsAttributeListEntry))
      (skip2 : Option (Nat × NtfsAttributeType)),
      processEntries ntfs base skip l = .yield e ef off (some lst) rest skip2 →
      ∀ x : Option NtfsAttributeListEntries,
        (⟨ef, off, x⟩ : NtfsAttribute).is_resident = some false := by
  intro l
  induction l with
  | nil =>
    intro e ef off lst rest skip2 h x
    simp [processEntries] at h
  | cons r rest0 ih =>
    intro e ef off lst rest skip2 h x
    cases r with
    | error e0 => simp [processEntries] at h
    | ok entry =>
      cases hn : NtfsAttributeType.n entry.ty_code with
      | none => simp [processEntries, hn] at h
      | some t0 =>
        by_cases hb : entry.base_record_number = base.file_record_number
        · rw [processEntries] at h
          simp only [hn, if_pos hb] at h
          exact ih e ef off lst rest skip2 h x
        · by_cases hsk : skipMatches skip entry.instanceNum t0 = true
          · rw [processEntries] at h
            simp only [hn, if_neg hb, hsk, if_pos rfl] at h
            exact ih e ef off lst rest skip2 h x
          · rw [processEntries] at h
            simp only [hn, if_neg hb, if_neg hsk] at h
            cases htf : entry.to_file ntfs with
            | error e1 => simp only [htf] at h; cases h
            | ok f =>
              simp only [htf] at h
              cases hta : entry.to_attribute f with
              | none => simp only [hta] at h; cases h
              | some r2 =>
                simp only [hta] at h
                cases r2 with
                | error e2 => cases h
                | ok attr =>
                  cases hir : attr.is_resident with
                  | none => simp only [hir] at h; cases h
                  | some b =>
                    simp only [hir] at h
                    cases b with
                    | true => cases h
                    | false =>
                      cases h
                      have hfile := NtfsAttributeListEntry.to_attribute_file e ef attr hta
                      have hsame :
                          (⟨ef, attr.offset, x⟩ : NtfsAttribute).is_resident =
                            attr.is_resident := by
                        rw [← hfile]
                        exact rfl
                      rw [hsame, hir]

/-- Helper: when the list phase finishes the step with a yield whose item
carries an attribute-list iterator handle, the item's cursor reads as
non-resident. -/
theorem NtfsAttributes.listPhase_yield_attached (ntfs : Ntfs) (s : NtfsAttributes)
    (item : NtfsAttributeItem) (s2 : NtfsAttributes)
    (h : NtfsAttributes.listPhase ntfs s = .inl (.yield item s2)) :
    ∀ le, item.list_entries = some le →
      item.to_attribute.is_resident = some false := by
  intro le hle
  rw [NtfsAttributes.listPhase] at h
  cases hse : s.list_entries with
  | none =>
    simp only [hse] at h
    exact Sum.noConfusion h
  | some le0 =>
    simp only [hse] at h
    cases hpe : processEntries ntfs s.raw_iter.file s.list_skip_info le0.entries with
    | fallthrough sk =>
      simp only [hpe] at h
      exact Sum.noConfusion h
    | panic =>
      simp only [hpe] at h
      exact LStep.noConfusion (Sum.inl.inj h)
    | error e0 rest sk =>
      simp only [hpe] at h
      exact LStep.noConfusion (Sum.inl.inj h)
    | yield e0 ef off lst rest sk =>
      simp only [hpe] at h
      injection Sum.inl.inj h with h1 h2
      subst h1
      simp only [NtfsAttributeItem.to_attribute] at hle ⊢
      rw [hle] at hpe
      exact processEntries_yield_attached ntfs s.raw_iter.file s.list_skip_info
        le0.entries e0 ef off le rest sk hpe (some le)

/-- Helper: a yield produced by the raw phase never carries an attribute-list
iterator handle. -/
theorem NtfsAttributes.rawPhase_yield_detached (ntfs : Ntfs) (s1 : NtfsAttributes)
    (item : NtfsAttributeItem) (s2 : NtfsAttributes)
    (h : NtfsAttributes.rawPhase ntfs s1 = .inl (.yield item s2)) :
    item.list_entries = none := by
  rw [NtfsAttributes.rawPhase] at h
  cases hrn : s1.raw_iter.next with
  | halt =>
    simp only [hrn] at h
    exact LStep.noConfusion (Sum.inl.inj h)
  | panic =>
    simp only [hrn] at h
    exact LStep.noConfusion (Sum.inl.inj h)
  | yield attr raw1 =>
    simp only [hrn] at h
    cases hty : attr.ty with
    | none =>
      simp only [hty] at h
      exact LStep.noConfusion (Sum.inl.inj h)
    | some r =>
      cases r with
      | error e0 =>
        simp only [hty] at h
        injection Sum.inl.inj h with h1 h2
        subst h1
        rfl
      | ok t =>
        cases t
        case AttributeList =>
          simp only [hty] at h
          cases hsv : attr.structured_value .AttributeList ntfs.attr_list_from_value with
          | none =>
            simp only [hsv] at h
            exact LStep.noConfusion (Sum.inl.inj h)
          | some r2 =>
            simp only [hsv] at h
            cases r2 with
            | error e1 => exact LStep.noConfusion (Sum.inl.inj h)
            | ok entries => exact Sum.noConfusion h
        all_goals
          simp only [hty] at h
          injection Sum.inl.inj h with h1 h2
          subst h1
          rfl

/-- Claim C8 (confirmed): every item yielded by the logical iterator that
carries an attribute-list iterator handle refers to a non-resident attribute
— the handle is attached only after the resolved attribute passed the
`is_resident` check, and raw-phase yields never attach one — so the
list-backed branch of `value` is never taken for a resident attribute. -/
theorem c8_attached_handle_non_resident (ntfs : Ntfs) :
    ∀ (fuel : Nat) (s : NtfsAttributes) (item : NtfsAttributeItem)
      (s2 : NtfsAttributes) (le : NtfsAttributeListEntries),
      NtfsAttributes.next ntfs fuel s = .yield item s2 →
      item.list_entries = some le →
      item.to_attribute.is_resident = some false := by
  intro fuel
  induction fuel with
  | zero =>
    intro s item s2 le h hle
    rw [NtfsAttributes.next] at h
    exact LStep.noConfusion h
  | succ n ih =>
    intro s item s2 le h hle
    rw [NtfsAttributes.next] at h
    cases hlp : NtfsAttributes.listPhase ntfs s with
    | inl r =>
      simp only [hlp] at h
      subst h
      exact NtfsAttributes.listPhase_yield_attached ntfs s item s2 hlp le hle
    | inr s1 =>
      simp only [hlp] at h
      cases hrp : NtfsAttributes.rawPhase ntfs s1 with
      | inl r =>
        simp only [hrp] at h
        subst h
        have hnone := NtfsAttributes.rawPhase_yield_detached ntfs s1 item s2 hrp
        rw [hnone] at hle
        exact Option.noConfusion hle
      | inr s3 =>
        simp only [hrp] at h
        exact ih s3 item s2 le h hle

/-- Witness for claim C8: the yield of the `nrEntry` scenario carries the
cloned iterator and its cursor reads non-resident. -/
theorem c8_witness : item8.to_attribute.is_resident = some false :=
  c8_attached_handle_non_resident ntfsA 3 s8 item8 s8b ⟨[.ok nrEntry]⟩
    (by decide) (by decide)

/-- Claim C3 counterexample: a logical-iterator step over `s3` surfaces the
decode error of the bad list entry, yet the very next step yields a further
item — the iterator is not exhausted by an error, contradicting the claim
that after an error every subsequent step produces no further items. -/
theorem c3_counterexample :
    NtfsAttributes.next ntfsA 3 s3 =
      LStep.error (.UnsupportedAttributeType 7777 0x25) s3after ∧
    NtfsAttributes.next ntfsA 3 s3after = LStep.yield item3 s3final := by
  exact ⟨by decide, by decide⟩

/-- Claim C3 as amended (proved): an error step reports the failure as an
error result and leaves the iterator in a resumable state: the following step
yields the attribute resolved from the next list entry (here the Data
attribute with instance 3 of record 42). -/
theorem c3_error_then_resumes :
    NtfsAttributes.next ntfsA 3 s3after = LStep.yield item3 s3final ∧
    item3.to_attribute.ty = rok .Data ∧
    item3.to_attribute.instanceNum = some 3 := by
  exact ⟨by decide, by decide, by decide⟩

/-- Claim C4 counterexample: over `s4`, whose attribute list repeats the same
entry twice (an ordering-respecting duplicate), two successive logical
iterator steps yield the same item — the same (type, name, instance) triple
(Data, empty, 3) appears twice in one full iteration, contradicting the
at-most-once claim. -/
theorem c4_counterexample :
    NtfsAttributes.next ntfsA 3 s4 = LStep.yield item4 s4b ∧
    NtfsAttributes.next ntfsA 3 s4b = LStep.yield item4 s4c ∧
    item4.to_attribute.ty = rok .Data ∧
    item4.to_attribute.name = rok [] ∧
    item4.to_attribute.instanceNum = some 3 := by
  exact ⟨by decide, by decide, by decide, by decide, by decide⟩

/-- Claim C4 as amended (proved): a list-phase yield never comes from an
entry whose base file reference equals the base file's own record number
(such entries are always skipped, so raw-visible attributes are not repeated
through the list), and never from an entry matching the active
(instance, type) skip key; global at-most-once uniqueness of
(type, name, instance) triples is not enforced — duplicated entries that
resolve to a resident attribute are yielded each time (see the
counterexample). -/
theorem c4_list_yield_skip_rules (ntfs : Ntfs) (base : NtfsFile)
    (skip : Option (Nat × NtfsAttributeType)) :
    ∀ (l : List (Except NtfsError NtfsAttributeListEntry))
      (e : NtfsAttributeListEntry) (ef : NtfsFile) (off : Nat)
      (lst : Option NtfsAttributeListEntries)
      (rest : List (Except NtfsError NtfsAttributeListEntry))
      (skip2 : Option (Nat × NtfsAttributeType)),
      processEntries ntfs base skip l = .yield e ef off lst rest skip2 →
      e.base_record_number ≠ base.file_record_number ∧
      (∀ t, NtfsAttributeType.n e.ty_code = some t →
        skipMatches skip e.instanceNum t = false) := by
  intro l
  induction l with
  | nil =>
    intro e ef off lst rest skip2 h
    simp [processEntries] at h
  | cons r rest0 ih =>
    intro e ef off lst rest skip2 h
    cases r with
    | error e0 => simp [processEntries] at h
    | ok entry =>
      cases hn : NtfsAttributeType.n entry.ty_code with
      | none => simp [processEntries, hn] at h
      | some t0 =>
        by_cases hb : entry.base_record_number = base.file_record_number
        · rw [processEntries] at h
          simp only [hn, if_pos hb] at h
          exact ih e ef off lst rest skip2 h
        · by_cases hsk : skipMatches skip entry.instanceNum t0 = true
          · rw [processEntries] at h
            simp only [hn, if_neg hb, hsk, if_pos rfl] at h
            exact ih e ef off lst rest skip2 h
          · rw [processEntries] at h
            simp only [hn, if_neg hb, if_neg hsk] at h
            have hfalse : skipMatches skip entry.instanceNum t0 = false := by
              cases hq : skipMatches skip entry.instanceNum t0
              · rfl
              · exact absurd hq hsk
            cases htf : entry.to_file ntfs with
            | error e1 => simp only [htf] at h; cases h
            | ok f =>
              simp only [htf] at h
              cases hta : entry.to_attribute f with
              | none => simp only [hta] at h; cases h
              | some r2 =>
                simp only [hta] at h
                cases r2 with
                | error e2 => cases h
                | ok attr =>
                  cases hir : attr.is_resident with
                  | none => simp only [hir] at h; cases h
                  | some b =>
                    simp only [hir] at h
                    cases b with
                    | true =>
                      cases h
                      refine ⟨hb, ?_⟩
                      intro t ht
                      rw [hn] at ht
                      obtain rfl : t0 = t := Option.some.inj ht
                      exact hfalse
                    | false =>
                      cases h
                      refine ⟨hb, ?_⟩
                      intro t ht
                      rw [hn] at ht
                      obtain rfl : t0 = t := Option.some.inj ht
                      exact hfalse

/-- Witness for the amended claim C4: applied to the single-entry list of the
C8 scenario, the yielded entry references record 43, not the base record 1,
and matches no skip key. -/
theorem c4_witness :
    nrEntry.base_record_number ≠ BF.file_record_number ∧
    (∀ t, NtfsAttributeType.n nrEntry.ty_code = some t →
      skipMatches none nrEntry.instanceNum t = false) :=
  c4_list_yield_skip_rules ntfsA BF none [.ok nrEntry] nrEntry EFN 0
    (some ⟨[.ok nrEntry]⟩) [] (some (7, .Data)) (by decide)
